import Mathlib

/-!
Shallow embedding of the streaming-conversation core of the `ai-bot-be`
repository: the structured-content detector and fragment stream of
`app/gemini.py`, the turn orchestration of `app/stream.py`, and the
history-store operations of `app/db.py`.

Modelling conventions:
* External machine state is passed explicitly.  Database reads are
  parametrised by the stored row list plus a flag recording whether the
  underlying client raised; provider traffic is parametrised by the list
  of text chunks received before the stream ended plus an optional raised
  exception.
* A Python generator is modelled as the finite list of values it yields.
  The SSE encoding step `data: <json>` of `app/stream.py` is injective
  and emits exactly one wire event per chunk, so emitted events are
  modelled as the chunks themselves.
* `created_at` / `datetime` timestamps are modelled as naturals ordered
  as the instants they denote.
* `Optional[str]` fragment content is modelled as `String`, with `""`
  standing for both `None` and the empty string: every Python truthiness
  test applied to it (`if chunk.text:`, `and chunk.content:`) identifies
  the two.
* An unbound Python local is modelled as an `Option` that starts out
  `none`; reading it through `readLocal` raises `UnboundLocalError`
  exactly as CPython does.
* `save_message` writes are recorded as requested append operations
  (the store is assumed to accept them); `update_thread_metadata` is a
  metadata side effect no claim below depends on.
-/

namespace AiBotBe

/-- Roles of `app/models.py` `MessageRole`. -/
inductive MessageRole where
  | user
  | assistant
  | system
deriving DecidableEq, Repr

/-- The `ChatMessage` model of `app/models.py` (role, content, timestamp). -/
structure ChatMessage where
  role : MessageRole
  content : String
  timestamp : Nat
deriving DecidableEq, Repr

/-- The `Literal["delta", "completion", "error", "artifact"]` of `StreamChunk.type`. -/
inductive ChunkType where
  | delta
  | completion
  | error
  | artifact
deriving DecidableEq, Repr

/-- The `StreamChunk` model of `app/models.py`. -/
structure StreamChunk where
  type : ChunkType
  content : String
  thread_id : String
  session_id : String
  has_artifact : Bool
  error_message : Option String
deriving DecidableEq, Repr

/-- The `ChatRequest` model of `app/models.py` (validation bounds are
enforced by pydantic before the streaming service runs and are not part
of the claims below). -/
structure ChatRequest where
  message : String
  thread_id : String
  session_id : String
deriving DecidableEq, Repr

/-- One row of the `messages` table as written by `save_message` in
`app/db.py`.  `role` is stored as a valid `MessageRole` because every
writer stores `role.value` of a `MessageRole`. -/
structure Row where
  thread_id : String
  session_id : String
  user_id : String
  role : MessageRole
  content : String
  created_at : Nat
deriving DecidableEq, Repr

/-- A requested `save_message(thread_id, session_id, role, content, user_id)`
append, in the argument order of `app/db.py`. -/
structure SavedMessage where
  thread_id : String
  session_id : String
  role : MessageRole
  content : String
  user_id : String
deriving DecidableEq, Repr

/-- One entry of the Gemini-format history built by
`GeminiClient._prepare_conversation_history`. -/
structure GeminiTurn where
  role : String
  parts : List String
deriving DecidableEq, Repr

/-- Abstraction of one run of the external Gemini provider inside
`GeminiClient.stream_response`: `chunks` are the `chunk.text` values
delivered before the stream ended, and `raised` is `some msg` when the
provider interaction raised an exception (with message `msg`) after
those chunks, `none` when iteration finished normally. -/
structure ProviderOutcome where
  chunks : List String
  raised : Option String
deriving DecidableEq, Repr

/-- Outcome of one external store operation: it either returns or raises. -/
inductive OpOutcome where
  | ok
  | raised (msg : String)
deriving DecidableEq, Repr

/-- Observable trace of `delete_thread` in `app/db.py`: its boolean
return value and which of the two delete statements were executed. -/
structure DeleteTrace where
  success : Bool
  messagesDeleteAttempted : Bool
  threadDeleteAttempted : Bool
deriving DecidableEq, Repr

/-- A raised Python exception, reduced to the string `str(e)` that the
code under study puts into error chunks. -/
structure PyError where
  msg : String
deriving DecidableEq, Repr

/-- Python `s.startswith(pat)`. -/
def pyStartswith (s pat : String) : Bool :=
  pat.data.isPrefixOf s.data

/-- Python `s.replace(pat, repl)` on character lists: scan left to right,
replacing each non-overlapping occurrence of `pat`.  The `Nat` argument
is fuel; it is always called with at least the length of the list, which
suffices because every step consumes at least one character. -/
def replaceCharsFuel (pat repl : List Char) : Nat → List Char → List Char
  | _, [] => []
  | 0, l => l
  | Nat.succ fuel, c :: rest =>
    if pat ≠ [] ∧ pat.isPrefixOf (c :: rest) then
      repl ++ replaceCharsFuel pat repl fuel (List.drop (pat.length - 1) rest)
    else
      c :: replaceCharsFuel pat repl fuel rest

/-- Python `s.replace(pat, repl)`. -/
def pyReplace (s pat repl : String) : String :=
  ⟨replaceCharsFuel pat.data repl.data s.data.length s.data⟩

/-- ASCII content of the regex class `\s` (Python `re` whitespace). -/
def isSpaceChar (c : Char) : Bool :=
  c = ' ' || c = '\t' || c = '\n' || c = '\r' || c = '\x0b' || c = '\x0c'

/-- ASCII content of the regex class `\w`. -/
def isWordChar (c : Char) : Bool :=
  c.isAlpha || c.isDigit || c = '_'

/-- Regex tokens sufficient for the patterns of
`GeminiClient._detect_code_artifact`: a literal character (compared
case-insensitively, for `re.IGNORECASE`), one character of a class, and
zero-or-more characters of a class. -/
inductive Tok where
  | lit : Char → Tok
  | one : (Char → Bool) → Tok
  | many : (Char → Bool) → Tok

/-- All suffixes of `s` reachable by consuming between zero and the
maximal run of characters satisfying `p` — the possible remainders after
matching `many p`. -/
def suffixesThroughRun (p : Char → Bool) : List Char → List (List Char)
  | [] => [[]]
  | c :: rest => (c :: rest) :: (if p c then suffixesThroughRun p rest else [])

/-- Whether some prefix of the character list matches the token list
(nondeterministically, which decides the same matches as Python regex
greedy matching does). -/
def toksMatch : List Tok → List Char → Bool
  | [], _ => true
  | Tok.lit _ :: _, [] => false
  | Tok.lit c :: ts, a :: s => (a.toLower == c.toLower) && toksMatch ts s
  | Tok.one _ :: _, [] => false
  | Tok.one p :: ts, a :: s => p a && toksMatch ts s
  | Tok.many p :: ts, s => (suffixesThroughRun p s).any (fun s2 => toksMatch ts s2)

/-- Python `re.search`: the pattern matches starting at some position. -/
def reSearch (p : List Tok) : List Char → Bool
  | [] => toksMatch p []
  | a :: s => toksMatch p (a :: s) || reSearch p s

/-- Literal tokens of a pattern string. -/
def litsOf (s : String) : List Tok :=
  s.data.map Tok.lit

/-- Tokens of `\s+`. -/
def wsPlus : List Tok := [Tok.one isSpaceChar, Tok.many isSpaceChar]

/-- Tokens of `\s*`. -/
def wsStar : List Tok := [Tok.many isSpaceChar]

/-- Tokens of `\w+`. -/
def wordPlus : List Tok := [Tok.one isWordChar, Tok.many isWordChar]

/-- The `code_patterns` list of `GeminiClient._detect_code_artifact`,
pattern by pattern.  Note the first pattern is six literal backquote
characters (the raw string in the source holds six of them), not a
three-backquote fence. -/
def code_patterns : List (List Tok) :=
  [ litsOf "``````"
  , litsOf "function" ++ wsPlus ++ wordPlus ++ wsStar ++ [Tok.lit '(']
  , litsOf "class" ++ wsPlus ++ wordPlus ++ wsStar ++ [Tok.one (fun c => c = ':' || c = '(')]
  , litsOf "def" ++ wsPlus ++ wordPlus ++ wsStar ++ [Tok.lit '(']
  , litsOf "const" ++ wsPlus ++ wordPlus ++ wsStar ++ [Tok.lit '=']
  , litsOf "let" ++ wsPlus ++ wordPlus ++ wsStar ++ [Tok.lit '=']
  , litsOf "var" ++ wsPlus ++ wordPlus ++ wsStar ++ [Tok.lit '=']
  , litsOf "#include" ++ wsStar ++ [Tok.lit '<']
  , litsOf "import" ++ wsPlus ++ wordPlus
  , litsOf "from" ++ wsPlus ++ wordPlus ++ wsPlus ++ litsOf "import"
  ]

/-- The detector `GeminiClient._detect_code_artifact`: true when some
pattern of `code_patterns` is found anywhere in `content`
(`re.search` with `IGNORECASE | DOTALL`; no pattern contains a dot, so
`DOTALL` is inert). -/
def _detect_code_artifact (content : String) : Bool :=
  code_patterns.any (fun p => reSearch p content.data)

/-- The history translation `GeminiClient._prepare_conversation_history`:
user and assistant turns are forwarded (assistant as role `model`),
system messages are dropped. -/
def _prepare_conversation_history : List ChatMessage → List GeminiTurn
  | [] => []
  | m :: rest =>
    match m.role with
    | MessageRole.user =>
        { role := "user", parts := [m.content] } :: _prepare_conversation_history rest
    | MessageRole.assistant =>
        { role := "model", parts := [m.content] } :: _prepare_conversation_history rest
    | MessageRole.system => _prepare_conversation_history rest

/-- The `delta` dict yielded by `GeminiClient.stream_response` for one
provider text chunk, flagged by the per-chunk detector call. -/
def deltaChunk (thread_id session_id t : String) : StreamChunk :=
  { type := ChunkType.delta
    content := t
    thread_id := thread_id
    session_id := session_id
    has_artifact := _detect_code_artifact t
    error_message := none }

/-- The `completion` dict yielded by `GeminiClient.stream_response`,
flagged by the detector call over the accumulated full response. -/
def completionChunk (thread_id session_id full_response : String) : StreamChunk :=
  { type := ChunkType.completion
    content := ""
    thread_id := thread_id
    session_id := session_id
    has_artifact := _detect_code_artifact full_response
    error_message := none }

/-- The `error` dict yielded by the `except` clause of
`GeminiClient.stream_response`, carrying `str(e)`. -/
def geminiErrorChunk (thread_id session_id msg : String) : StreamChunk :=
  { type := ChunkType.error
    content := ""
    thread_id := thread_id
    session_id := session_id
    has_artifact := false
    error_message := some msg }

/-- The fragment sequence yielded by `GeminiClient.stream_response` for
one provider run.  Provider chunks with empty (falsy) `chunk.text` are
skipped; every delivered text becomes one `delta` fragment flagged by
the detector; a normally finished run appends one `completion` fragment
flagged by the detector over the accumulated text, and a raising run
appends one `error` fragment carrying `str(e)` (the enclosing
`try`/`except` converts the exception). -/
def stream_response (po : ProviderOutcome) (current_message : String)
    (conversation_history : List ChatMessage) (thread_id session_id : String) :
    List StreamChunk :=
  let _history : List GeminiTurn :=
    _prepare_conversation_history conversation_history ++
      [{ role := "user", parts := [current_message] }]
  let texts := po.chunks.filter (fun t => t ≠ "")
  let deltas := texts.map (deltaChunk thread_id session_id)
  match po.raised with
  | none =>
    let full_response := String.join texts
    deltas ++ [completionChunk thread_id session_id full_response]
  | some msg =>
    deltas ++ [geminiErrorChunk thread_id session_id msg]

/-- Chronological comparison of messages, the key of the final
`messages.sort(key=lambda msg: msg.timestamp)` in `app/db.py`. -/
def tsLE (a b : ChatMessage) : Prop :=
  a.timestamp ≤ b.timestamp

instance : DecidableRel tsLE := fun a b => Nat.decLe a.timestamp b.timestamp

instance : IsTotal ChatMessage tsLE := ⟨fun a b => Nat.le_total a.timestamp b.timestamp⟩

instance : IsTrans ChatMessage tsLE := ⟨fun _ _ _ => Nat.le_trans⟩

/-- Comparison of rows by `created_at`, the `order("created_at", desc=False)`
key of the two select queries in `get_conversation_history`. -/
def rowLE (a b : Row) : Prop :=
  a.created_at ≤ b.created_at

instance : DecidableRel rowLE := fun a b => Nat.decLe a.created_at b.created_at

/-- One `client.table("messages").select("*").eq("thread_id", tid)`
`.order("created_at", desc=False).limit(limit)` query of
`get_conversation_history`, over the stored rows (a stable ascending
sort models the store ordering; ties among equal timestamps are not
load-bearing for any claim). -/
def selectByThreadAsc (db : List Row) (tid : String) (limit : Nat) : List Row :=
  (List.insertionSort rowLE (db.filter (fun r => r.thread_id = tid))).take limit

/-- Conversion of a stored row to the `ChatMessage` built row by row in
`get_conversation_history`. -/
def rowMessage (r : Row) : ChatMessage :=
  { role := r.role, content := r.content, timestamp := r.created_at }

/-- The `get_conversation_history` function of `app/db.py`.  `readRaises`
records whether the underlying client raised anywhere in the `try`
block; in that case the `except` clause logs and returns `[]`.
Otherwise the raw-id query and the `replace("req_", "")`-id query are
each limited to `limit`, concatenated, and stably sorted by timestamp. -/
def get_conversation_history (readRaises : Bool) (db : List Row)
    (thread_id : String) (limit : Nat := 50) : List ChatMessage :=
  if readRaises then []
  else
    let result := selectByThreadAsc db thread_id limit
    let thread_id_assistant := pyReplace thread_id "req_" ""
    let assitant_result := selectByThreadAsc db thread_id_assistant limit
    let messages := result.map rowMessage ++ assitant_result.map rowMessage
    List.insertionSort tsLE messages

/-- The `delete_thread` function of `app/db.py`: one `try` block runs the
messages delete then the threads delete and returns `True`; any raise is
caught and `False` is returned.  A raise in the messages delete
therefore skips the threads delete. -/
def delete_thread (deleteMessagesOutcome deleteThreadOutcome : OpOutcome) : DeleteTrace :=
  match deleteMessagesOutcome with
  | OpOutcome.raised _ =>
    { success := false, messagesDeleteAttempted := true, threadDeleteAttempted := false }
  | OpOutcome.ok =>
    match deleteThreadOutcome with
    | OpOutcome.raised _ =>
      { success := false, messagesDeleteAttempted := true, threadDeleteAttempted := true }
    | OpOutcome.ok =>
      { success := true, messagesDeleteAttempted := true, threadDeleteAttempted := true }

/-- The `UnboundLocalError` CPython raises when the local `thread_id` of
`StreamingService.stream_chat_response` is read before assignment. -/
def unboundLocalThreadId : PyError :=
  { msg := "cannot access local variable thread_id where it is not associated with a value" }

/-- Reading a Python local: `none` models a local that has not been
assigned yet, and reading it raises `UnboundLocalError`. -/
def readLocal (v : Option String) : Except PyError String :=
  match v with
  | some s => Except.ok s
  | none => Except.error unboundLocalThreadId

/-- The chunk built in the `except` clause of
`StreamingService.stream_chat_response`. -/
def streamErrorChunk (request : ChatRequest) (e : PyError) : StreamChunk :=
  { type := ChunkType.error
    content := ""
    thread_id := request.thread_id
    session_id := request.session_id
    has_artifact := false
    error_message := some e.msg }

/-- The `async for` loop of `StreamingService.stream_chat_response`
(lines 38-69 of `app/stream.py`) over an already opened fragment list:
accumulate `chunk.content` for truthy `delta` fragments, emit every
fragment, on `completion` save the accumulated text as one assistant
message (when non-empty) and stop, on `error` log and stop; any other
kind just continues.  Returns the emitted fragments and the requested
`save_message` appends. -/
def processStream (request : ChatRequest) (user_id : String) :
    List StreamChunk → String → List StreamChunk × List SavedMessage
  | [], _ => ([], [])
  | chunk :: rest, full_response =>
    let full_response :=
      if chunk.type = ChunkType.delta ∧ chunk.content ≠ "" then
        full_response ++ chunk.content
      else full_response
    match chunk.type with
    | ChunkType.completion =>
      ([chunk],
        if full_response ≠ "" then
          [{ thread_id := request.thread_id
             session_id := request.session_id
             role := MessageRole.assistant
             content := full_response
             user_id := user_id }]
        else [])
    | ChunkType.error => ([chunk], [])
    | _ =>
      let next := processStream request user_id rest full_response
      (chunk :: next.1, next.2)

/-- The generator `StreamingService.stream_chat_response` of
`app/stream.py`, returning the emitted fragments and the requested
`save_message` appends.  The `try` body loads history, then runs
`if not request.thread_id.startswith("req"): thread_id = f"req_{thread_id}"`
where the local `thread_id` starts out unassigned — the `f`-string reads
it in the taken branch, and the following `save_message(thread_id, ...)`
reads it when the branch is skipped — then saves the user message, opens
the Gemini fragment sequence and runs the forwarding loop; the `except`
clause converts any raise into one error chunk. -/
def stream_chat_response (readRaises : Bool) (db : List Row) (po : ProviderOutcome)
    (request : ChatRequest) (user_id : String) :
    List StreamChunk × List SavedMessage :=
  let history := get_conversation_history readRaises db request.thread_id 50
  let thread_idLocal : Option String := none
  let normalized : Except PyError (Option String) :=
    if !pyStartswith request.thread_id "req" then
      match readLocal thread_idLocal with
      | Except.ok v => Except.ok (some ("req_" ++ v))
      | Except.error e => Except.error e
    else
      Except.ok thread_idLocal
  match normalized with
  | Except.error e => ([streamErrorChunk request e], [])
  | Except.ok thread_idAfter =>
    match readLocal thread_idAfter with
    | Except.error e => ([streamErrorChunk request e], [])
    | Except.ok thread_id =>
      let userSave : SavedMessage :=
        { thread_id := thread_id
          session_id := request.session_id
          role := MessageRole.user
          content := request.message
          user_id := user_id }
      let frags := stream_response po request.message history request.thread_id request.session_id
      let result := processStream request user_id frags ""
      (result.1, userSave :: result.2)

/-- Concrete request used to evaluate the completion-turn persistence. -/
def reqC3 : ChatRequest :=
  { message := "add numbers", thread_id := "req_t3", session_id := "s3" }

/-- Concrete request used to evaluate the turn at a failing input. -/
def reqC4 : ChatRequest :=
  { message := "hi", thread_id := "t4", session_id := "s4" }

/-- Stored rows of one thread split across the raw and the prefixed
identifier space. -/
def dbC6 : List Row :=
  [ { thread_id := "req_t6", session_id := "s", user_id := "u",
      role := MessageRole.user, content := "m1", created_at := 3 }
  , { thread_id := "t6", session_id := "s", user_id := "u",
      role := MessageRole.assistant, content := "m2", created_at := 4 } ]

/-- Stored rows of one thread with an older and a newer message. -/
def dbC6b : List Row :=
  [ { thread_id := "req_t7", session_id := "s", user_id := "u",
      role := MessageRole.user, content := "old", created_at := 1 }
  , { thread_id := "req_t7", session_id := "s", user_id := "u",
      role := MessageRole.user, content := "new", created_at := 2 } ]

/-- A store holding one message for the thread the failing read targets. -/
def dbC8 : List Row :=
  [ { thread_id := "t8", session_id := "s", user_id := "u",
      role := MessageRole.user, content := "hello", created_at := 1 } ]

/-- Concrete request used to compare a failing-read turn with an
empty-store turn. -/
def reqC8 : ChatRequest :=
  { message := "hi", thread_id := "t8", session_id := "s8" }

/-- Claim C1: for every request (any message, any thread id, any session
id, any store and provider behaviour), `stream_chat_response` emits
exactly one event, of kind `error`, and requests no message save at all:
the thread-id normalization reads the unassigned local `thread_id` in
both branches of the `startswith("req")` test, so `UnboundLocalError` is
raised before `save_message` is reached and is converted into the single
error chunk by the enclosing `except` clause. -/
theorem C1_single_error_event_nothing_persisted
    (readRaises : Bool) (db : List Row) (po : ProviderOutcome)
    (request : ChatRequest) (user_id : String) :
    stream_chat_response readRaises db po request user_id =
      ([streamErrorChunk request unboundLocalThreadId], []) ∧
    (streamErrorChunk request unboundLocalThreadId).type = ChunkType.error := by
  refine ⟨?_, rfl⟩
  unfold stream_chat_response
  cases h : pyStartswith request.thread_id "req" <;> simp [h, readLocal]

/-- Claim C2: for every provider behaviour and every input, the fragment
sequence of `stream_response` is finite, consists of `delta` fragments
followed by exactly one terminal fragment of kind `completion` or
`error`, and nothing follows the terminal fragment (the enclosing
`try`/`except` converts any raise into that terminal fragment, so
iteration never raises past the consumer). -/
theorem C2_fragment_sequence_single_terminal
    (po : ProviderOutcome) (current_message : String)
    (history : List ChatMessage) (thread_id session_id : String) :
    ∃ ds last,
      stream_response po current_message history thread_id session_id = ds ++ [last] ∧
      (∀ c ∈ ds, c.type = ChunkType.delta) ∧
      (last.type = ChunkType.completion ∨ last.type = ChunkType.error) := by
  obtain ⟨chunks, raised⟩ := po
  cases raised with
  | none =>
    refine ⟨_, _, rfl, ?_, Or.inl rfl⟩
    intro c hc
    simp only [List.mem_map] at hc
    obtain ⟨t, _, rfl⟩ := hc
    rfl
  | some m =>
    refine ⟨_, _, rfl, ?_, Or.inr rfl⟩
    intro c hc
    simp only [List.mem_map] at hc
    obtain ⟨t, _, rfl⟩ := hc
    rfl

/-- Claim C9 counterexample: when the messages delete raises, the thread
delete is skipped, contradicting that both deletions are always
attempted. -/
theorem C9_counterexample :
    (delete_thread (OpOutcome.raised "messages delete failed") OpOutcome.ok).threadDeleteAttempted
        = false ∧
    (delete_thread (OpOutcome.raised "messages delete failed") OpOutcome.ok).success = false := by
  decide

/-- Claim C9 amended: `delete_thread` always attempts the Message-row
deletion, attempts the Thread-row deletion exactly when the Message-row
deletion raised no error, and returns success exactly when both
succeeded; a raise in the Message deletion skips the Thread deletion. -/
theorem C9_amended_second_delete_conditional_on_first
    (o1 o2 : OpOutcome) :
    (delete_thread o1 o2).messagesDeleteAttempted = true ∧
    ((delete_thread o1 o2).threadDeleteAttempted = true ↔ o1 = OpOutcome.ok) ∧
    ((delete_thread o1 o2).success = true ↔ o1 = OpOutcome.ok ∧ o2 = OpOutcome.ok) := by
  cases o1 <;> cases o2 <;> simp [delete_thread]

/-- Claim C4 (code evaluation at the failing input): at a concrete
request the turn fails before any fragment is produced, and it persists
nothing — in particular not the user message the claim says is saved
before any provider call. -/
theorem C4_code_eval_no_user_message_persisted :
    (stream_chat_response false [] ⟨[], none⟩ reqC4 "u4").2 = [] ∧
    (stream_chat_response false [] ⟨[], none⟩ reqC4 "u4").1.map (fun c => c.type) =
      [ChunkType.error] := by
  decide

/-- Claim C5 (code evaluation at the failing input): the detector
recognizes declaration patterns such as `function foo(`, but classifies a
standard three-backquote fenced code block as `false`, because its
code-block pattern matches only six consecutive backquote characters. -/
theorem C5_detector_misses_fenced_code_block :
    _detect_code_artifact "function foo(" = true ∧
    _detect_code_artifact "```\nhello world\n```" = false ∧
    _detect_code_artifact "``````" = true := by
  decide

/-- Claim C6 counterexample: with one message in each identifier space,
`limit = 1` returns two messages, more than `limit`; and with two
messages in one space, `limit = 1` returns the oldest message even
though a more recent one (timestamp 2) is stored for the thread. -/
theorem C6_counterexample :
    (get_conversation_history false dbC6 "req_t6" 1).length = 2 ∧
    get_conversation_history false dbC6b "req_t7" 1 =
      [{ role := MessageRole.user, content := "old", timestamp := 1 }] ∧
    (dbC6b.filter (fun r => r.thread_id = "req_t7")).map Row.created_at = [1, 2] := by
  decide

/-- Claim C6 amended: for every store, thread id and limit, history
retrieval returns at most `limit` messages from each of the two
identifier spaces — so up to `2 * limit` in total — and those messages
are the oldest `limit` of each space (ascending `created_at` with the
limit applied per query), merged in chronological order oldest first. -/
theorem C6_amended_two_space_oldest_window
    (db : List Row) (thread_id : String) (limit : Nat) :
    (get_conversation_history false db thread_id limit).length ≤ 2 * limit ∧
    (get_conversation_history false db thread_id limit).Sorted tsLE ∧
    (get_conversation_history false db thread_id limit).Perm
      ((selectByThreadAsc db thread_id limit ++
        selectByThreadAsc db (pyReplace thread_id "req_" "") limit).map rowMessage) := by
  refine ⟨?_, ?_, ?_⟩
  · have h1 : (selectByThreadAsc db thread_id limit).length ≤ limit := by
      simp [selectByThreadAsc]
    have h2 : (selectByThreadAsc db (pyReplace thread_id "req_" "") limit).length ≤ limit := by
      simp [selectByThreadAsc]
    simp only [get_conversation_history, if_neg Bool.false_ne_true,
      List.length_insertionSort, List.length_append, List.length_map]
    omega
  · simpa [get_conversation_history] using
      List.sorted_insertionSort tsLE
        ((selectByThreadAsc db thread_id limit).map rowMessage ++
          (selectByThreadAsc db (pyReplace thread_id "req_" "") limit).map rowMessage)
  · simpa [get_conversation_history, List.map_append] using
      List.perm_insertionSort tsLE
        ((selectByThreadAsc db thread_id limit).map rowMessage ++
          (selectByThreadAsc db (pyReplace thread_id "req_" "") limit).map rowMessage)

/-- Claim C7: for every store content, read outcome, thread id and limit,
the sequence returned by history retrieval has non-decreasing
timestamps, regardless of storage insertion order or of how the messages
split across the raw and the prefixed identifier spaces. -/
theorem C7_history_timestamps_non_decreasing
    (readRaises : Bool) (db : List Row) (thread_id : String) (limit : Nat) :
    (get_conversation_history readRaises db thread_id limit).Sorted tsLE := by
  cases readRaises with
  | true => simp [get_conversation_history]
  | false =>
    simpa [get_conversation_history] using
      List.sorted_insertionSort tsLE
        ((selectByThreadAsc db thread_id limit).map rowMessage ++
          (selectByThreadAsc db (pyReplace thread_id "req_" "") limit).map rowMessage)

/-- Claim C8 counterexample: a failing history read returns the same
empty list as a successful read of an empty store, and the whole
streaming turn produces bit-identical output in the two cases — the read
failure is not surfaced to the streaming client as anything
distinguishable from an empty-history turn. -/
theorem C8_counterexample :
    get_conversation_history true dbC8 "t8" 50 = [] ∧
    get_conversation_history true dbC8 "t8" 50 =
      get_conversation_history false [] "t8" 50 ∧
    stream_chat_response true dbC8 ⟨[], none⟩ reqC8 "u8" =
      stream_chat_response false [] ⟨[], none⟩ reqC8 "u8" := by
  decide

/-- Claim C8 amended: a failure of the conversation-history load is
caught inside `get_conversation_history`, which returns an empty list to
every caller — the turn-execution path included — so a storage read
failure during a turn degrades to an empty-history load and the turn
behaves exactly as it does over an empty store; no error fragment
specific to the read failure is produced. -/
theorem C8_amended_read_failure_degrades_to_empty_history
    (db : List Row) (thread_id : String) (limit : Nat)
    (po : ProviderOutcome) (request : ChatRequest) (user_id : String) :
    get_conversation_history true db thread_id limit = [] ∧
    stream_chat_response true db po request user_id =
      stream_chat_response false [] po request user_id := by
  refine ⟨rfl, ?_⟩
  unfold stream_chat_response
  cases h : pyStartswith request.thread_id "req" <;> simp [h, readLocal]

/-- Claim C10: whatever the request, store and provider behaviour, the
exception raised in the pre-stream steps (here the unbound-local read in
the normalization step) is converted by the `except` clause into exactly
one error fragment carrying the failure detail, after which the
generator stops, so the caller observes an explicit error rather than a
silently closed connection. -/
theorem C10_pre_stream_exception_single_error_fragment
    (readRaises : Bool) (db : List Row) (po : ProviderOutcome)
    (request : ChatRequest) (user_id : String) :
    (stream_chat_response readRaises db po request user_id).1.length = 1 ∧
    ∀ c ∈ (stream_chat_response readRaises db po request user_id).1,
      c.type = ChunkType.error ∧ c.error_message = some unboundLocalThreadId.msg := by
  unfold stream_chat_response
  cases h : pyStartswith request.thread_id "req" <;>
    simp [h, readLocal, streamErrorChunk]

/-- Auxiliary: folding string concatenation never shortens the accumulator. -/
theorem length_le_foldl_append (l : List String) (acc : String) :
    acc.length ≤ (l.foldl (fun a b => a ++ b) acc).length := by
  induction l generalizing acc with
  | nil => simp
  | cons b l ih =>
    calc acc.length ≤ (acc ++ b).length := by simp
    _ ≤ _ := by simpa using ih (acc ++ b)

/-- Auxiliary: a non-empty string has positive length. -/
theorem ne_empty_length_pos (t : String) (h : t ≠ "") : 0 < t.length := by
  cases t with
  | mk data =>
    cases data with
    | nil => exact absurd rfl h
    | cons c cs => simp [String.length]

/-- Auxiliary: folding string concatenation over a list with a non-empty
element yields a non-empty string. -/
theorem foldl_append_ne_empty :
    ∀ (l : List String) (acc : String), (∃ t ∈ l, t ≠ "") →
      l.foldl (fun a b => a ++ b) acc ≠ "" := by
  intro l
  induction l with
  | nil =>
    intro acc h
    simp at h
  | cons b l ih =>
    intro acc h
    rw [List.foldl_cons]
    rcases h with ⟨t, ht, hne⟩
    rcases List.mem_cons.mp ht with rfl | hmem
    · intro hcontra
      have h1 := length_le_foldl_append l (acc ++ t)
      rw [hcontra] at h1
      have h2 : 0 < t.length := ne_empty_length_pos t hne
      simp at h1
      omega
    · exact ih (acc ++ b) ⟨t, hmem, hne⟩

/-- Auxiliary: running the forwarding loop on delta fragments with
non-empty content followed by one completion fragment emits every
fragment and requests exactly the save of the accumulated concatenation
(when that is non-empty). -/
theorem processStream_deltas_then_completion
    (request : ChatRequest) (user_id : String) (c : StreamChunk)
    (hc : c.type = ChunkType.completion) :
    ∀ (ds : List StreamChunk),
      (∀ d ∈ ds, d.type = ChunkType.delta ∧ d.content ≠ "") →
      ∀ acc : String,
        processStream request user_id (ds ++ [c]) acc =
          (ds ++ [c],
            if (ds.map StreamChunk.content).foldl (fun a b => a ++ b) acc ≠ "" then
              [{ thread_id := request.thread_id
                 session_id := request.session_id
                 role := MessageRole.assistant
                 content := (ds.map StreamChunk.content).foldl (fun a b => a ++ b) acc
                 user_id := user_id }]
            else [] ) := by
  intro ds
  induction ds with
  | nil =>
    intro _ acc
    simp [processStream, hc]
  | cons d rest ih =>
    intro hds acc
    have hd := hds d (List.mem_cons_self d rest)
    have hrest : ∀ x ∈ rest, x.type = ChunkType.delta ∧ x.content ≠ "" :=
      fun x hx => hds x (List.mem_cons_of_mem d hx)
    have hstep := ih hrest (acc ++ d.content)
    simp only [List.cons_append, processStream, hd.1, hd.2, if_pos, List.map_cons,
      List.foldl_cons]
    simp [hstep, hd.1, hd.2]

/-- Auxiliary: the contents of the delta fragments built from a list of
provider texts are exactly those texts. -/
theorem map_content_deltaChunk (tid sid : String) (l : List String) :
    (l.map (deltaChunk tid sid)).map StreamChunk.content = l := by
  induction l with
  | nil => rfl
  | cons b l ih => simp [deltaChunk, ih]

/-- Auxiliary: every fragment built by `deltaChunk` passes the delta
filter. -/
theorem filter_delta_of_deltaChunks (tid sid : String) (l : List String) :
    (l.map (deltaChunk tid sid)).filter (fun x => x.type = ChunkType.delta) =
      l.map (deltaChunk tid sid) := by
  induction l with
  | nil => rfl
  | cons b l ih => simp [deltaChunk, ih]

/-- Claim C3: when the fragment sequence ends with a completion fragment
(no provider raise) and at least one delta fragment carried text, the
forwarding loop requests exactly one assistant-role save whose content
is the concatenation, in emission order, of the contents of all delta
fragments of the sequence. -/
theorem C3_completion_turn_persists_one_concatenated_assistant_message
    (po : ProviderOutcome) (current_message : String) (history : List ChatMessage)
    (request : ChatRequest) (user_id : String)
    (hok : po.raised = none)
    (hne : ∃ t ∈ po.chunks, t ≠ "") :
    (processStream request user_id
        (stream_response po current_message history request.thread_id request.session_id) "").2 =
      [{ thread_id := request.thread_id
         session_id := request.session_id
         role := MessageRole.assistant
         content := String.join
           (((stream_response po current_message history request.thread_id
                 request.session_id).filter
               (fun c => c.type = ChunkType.delta)).map StreamChunk.content)
         user_id := user_id }] := by
  obtain ⟨chunks, raised⟩ := po
  simp only at hok hne
  subst hok
  have hds : ∀ d ∈ (chunks.filter (fun t => t ≠ "")).map
      (deltaChunk request.thread_id request.session_id),
      d.type = ChunkType.delta ∧ d.content ≠ "" := by
    intro d hd
    simp only [List.mem_map] at hd
    obtain ⟨t, htmem, rfl⟩ := hd
    exact ⟨rfl, by simpa [deltaChunk] using (List.mem_filter.mp htmem).2⟩
  have hmain := processStream_deltas_then_completion request user_id
      (completionChunk request.thread_id request.session_id
        (String.join (chunks.filter (fun t => t ≠ "")))) rfl _ hds ""
  have hcond : ((chunks.filter (fun t => t ≠ "")).foldl (fun a b => a ++ b) "") ≠ "" := by
    rcases hne with ⟨t, ht, htne⟩
    exact foldl_append_ne_empty _ "" ⟨t, List.mem_filter.mpr ⟨ht, by simpa using htne⟩, htne⟩
  have hcompfilter : ([completionChunk request.thread_id request.session_id
      (String.join (chunks.filter (fun t => t ≠ "")))].filter
        (fun x => x.type = ChunkType.delta)) = [] := by
    simp [completionChunk]
  simp only [stream_response]
  rw [hmain, map_content_deltaChunk, if_pos hcond, List.filter_append,
    filter_delta_of_deltaChunks, hcompfilter, List.append_nil, map_content_deltaChunk]
  simp [String.join]

/-- Witness for C3 at a concrete provider run: deltas `abc` and `def`
(an empty chunk is skipped) followed by completion persist one assistant
message `abcdef`. -/
theorem C3_witness :
    (processStream reqC3 "u3"
        (stream_response ⟨["abc", "", "def"], none⟩ "add numbers" [] reqC3.thread_id
          reqC3.session_id) "").2 =
      [{ thread_id := reqC3.thread_id
         session_id := reqC3.session_id
         role := MessageRole.assistant
         content := "abcdef"
         user_id := "u3" }] := by
  have h := C3_completion_turn_persists_one_concatenated_assistant_message
      ⟨["abc", "", "def"], none⟩ "add numbers" [] reqC3 "u3" rfl (by decide)
  exact h.trans (by decide)

end AiBotBe
